import Mathlib

/-!
Verification of the GitHub porcelain layer (entity resolution over a
plugin-namespaced property graph). The porcelain module is embedded from
the repository source; the underlying graph query substrate
(`core/graph`), which is not part of the snapshot, is modelled from the
specification's graph query contract.
-/

/-- Structured address: plugin namespace, entity type tag, opaque id. -/
structure Address where
  pluginName : String
  type : String
  id : String
deriving DecidableEq

/-- Payload of a node, a closed union keyed by the node's type tag.
Includes the git plugin's Commit payload, since MERGED_AS edges point to
Commit nodes that may live in the same graph. -/
inductive NodePayload where
  | repository (owner name url : String)
  | issue (number : Int) (title body url : String)
  | pullRequest (number : Int) (title body url : String)
  | comment (body url : String)
  | author (login subtype url : String)
  | pullRequestReview (state body url : String)
  | pullRequestReviewComment (body url : String)
  | commit (url : String)
deriving DecidableEq

/-- Reading the `url` field of a payload (present on every variant). -/
def NodePayload.urlOf : NodePayload → String
  | .repository _ _ u => u
  | .issue _ _ _ u => u
  | .pullRequest _ _ _ u => u
  | .comment _ u => u
  | .author _ _ u => u
  | .pullRequestReview _ _ u => u
  | .pullRequestReviewComment _ u => u
  | .commit u => u

/-- Reading the `body` field; absent (undefined) on payloads without one. -/
def NodePayload.bodyOf : NodePayload → Option String
  | .issue _ _ b _ => some b
  | .pullRequest _ _ b _ => some b
  | .comment b _ => some b
  | .pullRequestReview _ b _ => some b
  | .pullRequestReviewComment b _ => some b
  | _ => none

/-- Reading the `number` field; absent on payloads without one. -/
def NodePayload.numberOf : NodePayload → Option Int
  | .issue n _ _ _ => some n
  | .pullRequest n _ _ _ => some n
  | _ => none

/-- Reading the `title` field; absent on payloads without one. -/
def NodePayload.titleOf : NodePayload → Option String
  | .issue _ t _ _ => some t
  | .pullRequest _ t _ _ => some t
  | _ => none

/-- Reading the `owner` field; absent on payloads without one. -/
def NodePayload.ownerOf : NodePayload → Option String
  | .repository o _ _ => some o
  | _ => none

/-- Reading the `name` field; absent on payloads without one. -/
def NodePayload.nameOf : NodePayload → Option String
  | .repository _ n _ => some n
  | _ => none

/-- Reading the `login` field; absent on payloads without one. -/
def NodePayload.loginOf : NodePayload → Option String
  | .author l _ _ => some l
  | _ => none

/-- Payload of an edge. Only the MERGED_AS payload carries a field the
porcelain layer reads (the merge commit hash). -/
inductive EdgePayload where
  | authors
  | contains
  | references
  | mergedAs (hash : String)
deriving DecidableEq

/-- Reading the `hash` field of an edge payload; absent unless MERGED_AS. -/
def EdgePayload.hashOf : EdgePayload → Option String
  | .mergedAs h => some h
  | _ => none

/-- A node: an address and a typed payload. -/
structure Node where
  address : Address
  payload : NodePayload
deriving DecidableEq

/-- An edge: its own address, a source address, a destination address, and
a typed payload. -/
structure Edge where
  address : Address
  src : Address
  dst : Address
  payload : EdgePayload
deriving DecidableEq

/-- Modelled from the spec: the Graph storage substrate (`core/graph` is
not in the repository snapshot) — a collection of nodes and directed
edges, each keyed by address. -/
structure Graph where
  nodes : List Node
  edges : List Edge
deriving DecidableEq

/-- Modelled from the spec: `graph.nodes({type})`, filtered enumeration of
nodes whose address type tag matches. -/
def Graph.nodesOfType (g : Graph) (t : String) : List Node :=
  g.nodes.filter (fun n => n.address.type = t)

/-- Modelled from the spec: `graph.node(address)`, point lookup; absent is
a valid non-error result. -/
def Graph.node (g : Graph) (a : Address) : Option Node :=
  g.nodes.find? (fun n => n.address = a)

/-- Traversal direction for neighborhood queries. `ANY` is the default
when the caller omits the direction criterion (omitting a criterion means
no filter on that dimension). -/
inductive Direction where
  | IN
  | OUT
  | ANY
deriving DecidableEq

/-- One neighborhood query result: the matching edge and the address of
the neighbor at its far end. -/
structure NeighborhoodResult where
  edge : Edge
  neighbor : Address
deriving DecidableEq

/-- Modelled from the spec: `graph.neighborhood(address, options)` — all
edges incident to the address matching the direction (`OUT` = address is
src, `IN` = address is dst, `ANY` = either), the edge type tag filter, and
the neighbor node type tag filter; each omitted filter (`none`) means no
filter on that dimension. -/
def Graph.neighborhood (g : Graph) (a : Address)
    (edgeType nodeType : Option String) (direction : Direction) :
    List NeighborhoodResult :=
  g.edges.filterMap (fun e =>
    if (match direction with
        | .OUT => decide (e.src = a)
        | .IN => decide (e.dst = a)
        | .ANY => decide (e.src = a) || decide (e.dst = a)) then
      if (match edgeType with
          | some t => decide (e.address.type = t)
          | none => true) &&
         (match nodeType with
          | some t =>
            decide ((if e.src = a then e.dst else e.src).type = t)
          | none => true) then
        some ⟨e, if e.src = a then e.dst else e.src⟩
      else none
    else none)

/-- Modelled from the spec: the owning plugin's name (the plugin name
module is not in the repository snapshot). -/
def PLUGIN_NAME : String := "sourcecred/github-beta"

def ISSUE_NODE_TYPE : String := "ISSUE"

def PULL_REQUEST_NODE_TYPE : String := "PULL_REQUEST"

def COMMENT_NODE_TYPE : String := "COMMENT"

def AUTHOR_NODE_TYPE : String := "AUTHOR"

def PULL_REQUEST_REVIEW_NODE_TYPE : String := "PULL_REQUEST_REVIEW"

def PULL_REQUEST_REVIEW_COMMENT_NODE_TYPE : String :=
  "PULL_REQUEST_REVIEW_COMMENT"

def REPOSITORY_NODE_TYPE : String := "REPOSITORY"

/-- Modelled from the spec: the git plugin's Commit node type tag. -/
def COMMIT_NODE_TYPE : String := "COMMIT"

def AUTHORS_EDGE_TYPE : String := "AUTHORS"

def CONTAINS_EDGE_TYPE : String := "CONTAINS"

def MERGED_AS_EDGE_TYPE : String := "MERGED_AS"

def REFERENCES_EDGE_TYPE : String := "REFERENCES"

/-- The closed set of GitHub entity type tags handled by the dispatch. -/
def GITHUB_NODE_TYPES : List String :=
  [ISSUE_NODE_TYPE, PULL_REQUEST_NODE_TYPE, COMMENT_NODE_TYPE,
   AUTHOR_NODE_TYPE, PULL_REQUEST_REVIEW_NODE_TYPE,
   PULL_REQUEST_REVIEW_COMMENT_NODE_TYPE, REPOSITORY_NODE_TYPE]

/-- Which porcelain wrapper class an entity was constructed as. -/
inductive EntityKind where
  | repository
  | issue
  | pullRequest
  | comment
  | author
  | pullRequestReview
  | pullRequestReviewComment
deriving DecidableEq

/-- A porcelain entity: a wrapper class holding the whole graph and the
address of one node in it. -/
structure GithubEntity where
  kind : EntityKind
  graph : Graph
  nodeAddress : Address
deriving DecidableEq

/-- GithubEntity.node(): point lookup of the backing node. -/
def GithubEntity.node (e : GithubEntity) : Option Node :=
  e.graph.node e.nodeAddress

/-- GithubEntity.type(): the type tag of the entity's address. -/
def GithubEntity.type (e : GithubEntity) : String :=
  e.nodeAddress.type

/-- GithubEntity.address(): the entity's address. -/
def GithubEntity.address (e : GithubEntity) : Address :=
  e.nodeAddress

/-- The error kinds raised by the porcelain layer. -/
inductive Err where
  | wrongNamespace (addr : Address)
  | unknownEntityType (addr : Address)
  | missingPayload (addr : Address)
  | typeMismatch (addr : Address) (expected : String)
  | invariantViolation (id : String)
  | multipleRepositories (owner name : String)
deriving DecidableEq

/-- GithubEntity.url(): reads the backing node's payload url; fails with
MissingPayload when the address has no backing node. -/
def GithubEntity.url (e : GithubEntity) : Except Err String :=
  match e.node with
  | none => .error (.missingPayload e.nodeAddress)
  | some n => .ok n.payload.urlOf

/-- asEntity: namespace check, then dispatch on the address type tag over
the closed set of entity variants. -/
def asEntity (g : Graph) (addr : Address) : Except Err GithubEntity :=
  if addr.pluginName ≠ PLUGIN_NAME then .error (.wrongNamespace addr)
  else if addr.type = ISSUE_NODE_TYPE then .ok ⟨.issue, g, addr⟩
  else if addr.type = PULL_REQUEST_NODE_TYPE then .ok ⟨.pullRequest, g, addr⟩
  else if addr.type = COMMENT_NODE_TYPE then .ok ⟨.comment, g, addr⟩
  else if addr.type = AUTHOR_NODE_TYPE then .ok ⟨.author, g, addr⟩
  else if addr.type = PULL_REQUEST_REVIEW_NODE_TYPE then
    .ok ⟨.pullRequestReview, g, addr⟩
  else if addr.type = PULL_REQUEST_REVIEW_COMMENT_NODE_TYPE then
    .ok ⟨.pullRequestReviewComment, g, addr⟩
  else if addr.type = REPOSITORY_NODE_TYPE then .ok ⟨.repository, g, addr⟩
  else .error (.unknownEntityType addr)

/-- Porcelain.repositories(graph): all REPOSITORY-typed nodes wrapped as
Repository entities. -/
def Porcelain.repositories (g : Graph) : List GithubEntity :=
  (g.nodesOfType REPOSITORY_NODE_TYPE).map
    (fun n => ⟨.repository, g, n.address⟩)

/-- Repository.owner(): payload owner field, MissingPayload if dangling. -/
def Repository.owner (e : GithubEntity) : Except Err (Option String) :=
  match e.node with
  | none => .error (.missingPayload e.nodeAddress)
  | some n => .ok n.payload.ownerOf

/-- Repository.name(): payload name field, MissingPayload if dangling. -/
def Repository.name (e : GithubEntity) : Except Err (Option String) :=
  match e.node with
  | none => .error (.missingPayload e.nodeAddress)
  | some n => .ok n.payload.nameOf

/-- Porcelain.repository(owner, name): filter the repositories by owner
and name; more than one match is an error; zero matches yields the absent
value (indexing past the end of the filtered array). -/
def Porcelain.repository (g : Graph) (owner name : String) :
    Except Err (Option GithubEntity) :=
  let repo := (Porcelain.repositories g).filter (fun r =>
    match Repository.owner r, Repository.name r with
    | .ok (some o), .ok (some nm) => o = owner ∧ nm = name
    | _, _ => false)
  if repo.length > 1 then .error (.multipleRepositories owner name)
  else .ok repo.head?

/-- Repository.issueOrPRByNumber(number): scan all Issue nodes, then all
PullRequest nodes, writing each match into a single result slot. -/
def Repository.issueOrPRByNumber (e : GithubEntity) (number : Int) :
    Option GithubEntity :=
  let afterIssues :=
    (e.graph.nodesOfType ISSUE_NODE_TYPE).foldl
      (fun res n =>
        if n.payload.numberOf == some number then
          some (⟨.issue, e.graph, n.address⟩ : GithubEntity)
        else res)
      none
  (e.graph.nodesOfType PULL_REQUEST_NODE_TYPE).foldl
    (fun res n =>
      if n.payload.numberOf == some number then
        some (⟨.pullRequest, e.graph, n.address⟩ : GithubEntity)
      else res)
    afterIssues

/-- Repository.issues(): full-graph scan for ISSUE-typed nodes. -/
def Repository.issues (e : GithubEntity) : List GithubEntity :=
  (e.graph.nodesOfType ISSUE_NODE_TYPE).map
    (fun n => ⟨.issue, e.graph, n.address⟩)

/-- Repository.pullRequests(): full-graph scan for PULL_REQUEST nodes. -/
def Repository.pullRequests (e : GithubEntity) : List GithubEntity :=
  (e.graph.nodesOfType PULL_REQUEST_NODE_TYPE).map
    (fun n => ⟨.pullRequest, e.graph, n.address⟩)

/-- Repository.authors(): full-graph scan for AUTHOR-typed nodes. -/
def Repository.authors (e : GithubEntity) : List GithubEntity :=
  (e.graph.nodesOfType AUTHOR_NODE_TYPE).map
    (fun n => ⟨.author, e.graph, n.address⟩)

/-- Post.authors(): neighborhood query with the AUTHORS edge type and the
Author neighbor type; the call site supplies no direction criterion. -/
def Post.authors (e : GithubEntity) : List GithubEntity :=
  (e.graph.neighborhood e.nodeAddress
      (some AUTHORS_EDGE_TYPE) (some AUTHOR_NODE_TYPE) .ANY).map
    (fun r => ⟨.author, e.graph, r.neighbor⟩)

/-- The claim's description of authors(): the neighborhood query with
edge type AUTHORS, direction OUT, and neighbor node type Author, each
neighbor wrapped as an Author entity. Stated from the claim's words, to
be compared with the source definition above, whose call site supplies no
direction criterion. -/
def Post.authorsSpec (e : GithubEntity) : List GithubEntity :=
  (e.graph.neighborhood e.nodeAddress
      (some AUTHORS_EDGE_TYPE) (some AUTHOR_NODE_TYPE) .OUT).map
    (fun r => ⟨.author, e.graph, r.neighbor⟩)

/-- Post.body(): payload body field, MissingPayload if dangling. -/
def Post.body (e : GithubEntity) : Except Err (Option String) :=
  match e.node with
  | none => .error (.missingPayload e.nodeAddress)
  | some n => .ok n.payload.bodyOf

/-- The list of OUT-direction REFERENCES neighbors of a post. -/
def Post.referenceNeighbors (e : GithubEntity) : List Address :=
  (e.graph.neighborhood e.nodeAddress
      (some REFERENCES_EDGE_TYPE) none .OUT).map
    (fun r => r.neighbor)

/-- Post.references(): each OUT-direction REFERENCES neighbor resolved
through the asEntity dispatcher; a dispatch failure aborts the whole
call, as a thrown exception inside a map does. -/
def Post.references (e : GithubEntity) : Except Err (List GithubEntity) :=
  (Post.referenceNeighbors e).mapM (fun a => asEntity e.graph a)

/-- Commentable.comments(): neighborhood query with the CONTAINS edge type
and the Comment neighbor type; no direction criterion is supplied. -/
def Commentable.comments (e : GithubEntity) : List GithubEntity :=
  (e.graph.neighborhood e.nodeAddress
      (some CONTAINS_EDGE_TYPE) (some COMMENT_NODE_TYPE) .ANY).map
    (fun r => ⟨.comment, e.graph, r.neighbor⟩)

/-- PullRequest.reviews(): neighborhood query with the CONTAINS edge type
and the PullRequestReview neighbor type; no direction criterion. -/
def PullRequest.reviews (e : GithubEntity) : List GithubEntity :=
  (e.graph.neighborhood e.nodeAddress
      (some CONTAINS_EDGE_TYPE) (some PULL_REQUEST_REVIEW_NODE_TYPE)
      .ANY).map
    (fun r => ⟨.pullRequestReview, e.graph, r.neighbor⟩)

/-- PullRequest.mergeCommitHash(): the OUT-direction MERGED_AS edges to
Commit nodes; more than one is an invariant violation, zero yields the
null value, one yields that edge's payload hash. -/
def PullRequest.mergeCommitHash (e : GithubEntity) :
    Except Err (Option String) :=
  let mergeEdge :=
    (e.graph.neighborhood e.nodeAddress
        (some MERGED_AS_EDGE_TYPE) (some COMMIT_NODE_TYPE) .OUT).map
      (fun r => r.edge)
  if mergeEdge.length > 1 then
    .error (.invariantViolation e.nodeAddress.id)
  else
    match mergeEdge with
    | [] => .ok none
    | ed :: _ => .ok ed.payload.hashOf

/-- assertEntityType: the downcast assertion shared by every variant's
static from method; the error embeds the entity's address and the
expected type tag. -/
def assertEntityType (e : GithubEntity) (t : String) : Except Err Unit :=
  if e.type ≠ t then .error (.typeMismatch e.address t) else .ok ()

/-- Author.from(e): assert the AUTHOR tag, then return e narrowed. -/
def Author.from_ (e : GithubEntity) : Except Err GithubEntity :=
  match assertEntityType e AUTHOR_NODE_TYPE with
  | .error err => .error err
  | .ok _ => .ok e

/-- PullRequest.from(e): assert the PULL_REQUEST tag, then return e. -/
def PullRequest.from_ (e : GithubEntity) : Except Err GithubEntity :=
  match assertEntityType e PULL_REQUEST_NODE_TYPE with
  | .error err => .error err
  | .ok _ => .ok e

/-- Issue.from(e): assert the ISSUE tag, then return e narrowed. -/
def Issue.from_ (e : GithubEntity) : Except Err GithubEntity :=
  match assertEntityType e ISSUE_NODE_TYPE with
  | .error err => .error err
  | .ok _ => .ok e

/-- Comment.from(e): assert the COMMENT tag, then return e narrowed. -/
def Comment.from_ (e : GithubEntity) : Except Err GithubEntity :=
  match assertEntityType e COMMENT_NODE_TYPE with
  | .error err => .error err
  | .ok _ => .ok e

/-- PullRequestReview.from(e): assert the PULL_REQUEST_REVIEW tag. -/
def PullRequestReview.from_ (e : GithubEntity) : Except Err GithubEntity :=
  match assertEntityType e PULL_REQUEST_REVIEW_NODE_TYPE with
  | .error err => .error err
  | .ok _ => .ok e

/-- PullRequestReviewComment.from(e): assert the
PULL_REQUEST_REVIEW_COMMENT tag, then return e narrowed. -/
def PullRequestReviewComment.from_ (e : GithubEntity) :
    Except Err GithubEntity :=
  match assertEntityType e PULL_REQUEST_REVIEW_COMMENT_NODE_TYPE with
  | .error err => .error err
  | .ok _ => .ok e

/-- Concrete pull request address used in cardinality examples. -/
def prAddr : Address := ⟨PLUGIN_NAME, "PULL_REQUEST", "pr1"⟩

/-- Concrete git-plugin commit address (a foreign namespace). -/
def commitAddr : Address := ⟨"sourcecred/git-beta", "COMMIT", "c1"⟩

/-- A MERGED_AS edge from the pull request to the commit. -/
def mergeEdge1 : Edge :=
  ⟨⟨PLUGIN_NAME, "MERGED_AS", "e1"⟩, prAddr, commitAddr, .mergedAs "abc123"⟩

/-- A second MERGED_AS edge from the same pull request. -/
def mergeEdge2 : Edge :=
  ⟨⟨PLUGIN_NAME, "MERGED_AS", "e2"⟩, prAddr, commitAddr, .mergedAs "def456"⟩

/-- Graph with exactly one MERGED_AS edge for the pull request. -/
def mergedGraph : Graph := ⟨[], [mergeEdge1]⟩

/-- Graph with two MERGED_AS edges for the same pull request. -/
def doubleMergedGraph : Graph := ⟨[], [mergeEdge1, mergeEdge2]⟩

/-- Concrete issue address used as the post in the authors example. -/
def postAddr7 : Address := ⟨PLUGIN_NAME, "ISSUE", "i7"⟩

/-- Concrete author address used in the authors example. -/
def authorAddr7 : Address := ⟨PLUGIN_NAME, "AUTHOR", "a7"⟩

/-- An AUTHORS edge pointing INTO the post (src is the author, dst is the
post), so it is incident to the post only in the IN direction. -/
def inAuthorsEdge : Edge :=
  ⟨⟨PLUGIN_NAME, "AUTHORS", "e7"⟩, authorAddr7, postAddr7, .authors⟩

/-- Graph holding only the IN-direction AUTHORS edge. -/
def authorsGraph : Graph := ⟨[], [inAuthorsEdge]⟩

/-- Concrete repository addresses and payload for the lookup examples. -/
def repoAddr1 : Address := ⟨PLUGIN_NAME, "REPOSITORY", "r1"⟩

def repoAddr2 : Address := ⟨PLUGIN_NAME, "REPOSITORY", "r2"⟩

def repoPayload : NodePayload := .repository "acme" "widgets" "http://r"

/-- Graph with a single acme/widgets repository node. -/
def oneRepoGraph : Graph := ⟨[⟨repoAddr1, repoPayload⟩], []⟩

/-- Graph with two repository nodes that share owner and name. -/
def twoRepoGraph : Graph :=
  ⟨[⟨repoAddr1, repoPayload⟩, ⟨repoAddr2, repoPayload⟩], []⟩

/-- Concrete issue address used as the post in the references example. -/
def post10 : Address := ⟨PLUGIN_NAME, "ISSUE", "i10"⟩

/-- A REFERENCES edge from the post to the git-plugin commit. -/
def refEdge10 : Edge :=
  ⟨⟨PLUGIN_NAME, "REFERENCES", "e10"⟩, post10, commitAddr, .references⟩

/-- Graph holding only the post-to-commit REFERENCES edge. -/
def refGraph : Graph := ⟨[], [refEdge10]⟩

/-- Decidable equality for Except results, so that concrete porcelain
outcomes can be evaluated by decision. -/
instance exceptDecEq {ε α : Type} [DecidableEq ε] [DecidableEq α] :
    DecidableEq (Except ε α) := fun x y =>
  match x, y with
  | .error a, .error b =>
    if h : a = b then isTrue (by rw [h])
    else isFalse (fun c => h (Except.error.inj c))
  | .error _, .ok _ => isFalse (fun c => Except.noConfusion c)
  | .ok _, .error _ => isFalse (fun c => Except.noConfusion c)
  | .ok a, .ok b =>
    if h : a = b then isTrue (by rw [h])
    else isFalse (fun c => h (Except.ok.inj c))

/-- C1: asEntity fails with WrongNamespace when the address's plugin
namespace differs from the owning plugin; when the namespace matches it
returns the entity variant corresponding to the address's type tag for
each tag in the closed set {ISSUE, PULL_REQUEST, COMMENT, AUTHOR,
PULL_REQUEST_REVIEW, PULL_REQUEST_REVIEW_COMMENT, REPOSITORY}, and fails
with UnknownEntityType for any tag outside that set. -/
theorem asEntity_dispatch (g : Graph) (a : Address) :
    (a.pluginName ≠ PLUGIN_NAME →
      asEntity g a = .error (.wrongNamespace a)) ∧
    (a.pluginName = PLUGIN_NAME →
      (a.type = ISSUE_NODE_TYPE → asEntity g a = .ok ⟨.issue, g, a⟩) ∧
      (a.type = PULL_REQUEST_NODE_TYPE →
        asEntity g a = .ok ⟨.pullRequest, g, a⟩) ∧
      (a.type = COMMENT_NODE_TYPE → asEntity g a = .ok ⟨.comment, g, a⟩) ∧
      (a.type = AUTHOR_NODE_TYPE → asEntity g a = .ok ⟨.author, g, a⟩) ∧
      (a.type = PULL_REQUEST_REVIEW_NODE_TYPE →
        asEntity g a = .ok ⟨.pullRequestReview, g, a⟩) ∧
      (a.type = PULL_REQUEST_REVIEW_COMMENT_NODE_TYPE →
        asEntity g a = .ok ⟨.pullRequestReviewComment, g, a⟩) ∧
      (a.type = REPOSITORY_NODE_TYPE →
        asEntity g a = .ok ⟨.repository, g, a⟩) ∧
      (a.type ∉ GITHUB_NODE_TYPES →
        asEntity g a = .error (.unknownEntityType a))) := by
  constructor
  · intro h
    simp [asEntity, h]
  · intro h
    refine ⟨?_, ?_, ?_, ?_, ?_, ?_, ?_, ?_⟩ <;> intro ht
    · simp [asEntity, h, ht]
    · simp [asEntity, h, ht, PULL_REQUEST_NODE_TYPE, ISSUE_NODE_TYPE]
    · simp [asEntity, h, ht, COMMENT_NODE_TYPE, ISSUE_NODE_TYPE,
        PULL_REQUEST_NODE_TYPE]
    · simp [asEntity, h, ht, AUTHOR_NODE_TYPE, ISSUE_NODE_TYPE,
        PULL_REQUEST_NODE_TYPE, COMMENT_NODE_TYPE]
    · simp [asEntity, h, ht, PULL_REQUEST_REVIEW_NODE_TYPE,
        ISSUE_NODE_TYPE, PULL_REQUEST_NODE_TYPE, COMMENT_NODE_TYPE,
        AUTHOR_NODE_TYPE]
    · simp [asEntity, h, ht, PULL_REQUEST_REVIEW_COMMENT_NODE_TYPE,
        ISSUE_NODE_TYPE, PULL_REQUEST_NODE_TYPE, COMMENT_NODE_TYPE,
        AUTHOR_NODE_TYPE, PULL_REQUEST_REVIEW_NODE_TYPE]
    · simp [asEntity, h, ht, REPOSITORY_NODE_TYPE, ISSUE_NODE_TYPE,
        PULL_REQUEST_NODE_TYPE, COMMENT_NODE_TYPE, AUTHOR_NODE_TYPE,
        PULL_REQUEST_REVIEW_NODE_TYPE,
        PULL_REQUEST_REVIEW_COMMENT_NODE_TYPE]
    · simp [GITHUB_NODE_TYPES] at ht
      obtain ⟨h1, h2, h3, h4, h5, h6, h7⟩ := ht
      simp [asEntity, h, h1, h2, h3, h4, h5, h6, h7]

/-- Witness for C1 at concrete addresses: a matching namespace with the
ISSUE tag dispatches to the Issue variant; a foreign namespace fails with
WrongNamespace; a matching namespace with the COMMIT tag fails with
UnknownEntityType. -/
theorem asEntity_dispatch_witness :
    asEntity ⟨[], []⟩ ⟨PLUGIN_NAME, "ISSUE", "i1"⟩ =
      .ok ⟨.issue, ⟨[], []⟩, ⟨PLUGIN_NAME, "ISSUE", "i1"⟩⟩ ∧
    asEntity ⟨[], []⟩ ⟨"git-plugin", "ISSUE", "i1"⟩ =
      .error (.wrongNamespace ⟨"git-plugin", "ISSUE", "i1"⟩) ∧
    asEntity ⟨[], []⟩ ⟨PLUGIN_NAME, "COMMIT", "c1"⟩ =
      .error (.unknownEntityType ⟨PLUGIN_NAME, "COMMIT", "c1"⟩) := by
  refine ⟨?_, ?_, ?_⟩
  · exact ((asEntity_dispatch ⟨[], []⟩ _).2 rfl).1 rfl
  · exact (asEntity_dispatch ⟨[], []⟩ _).1 (by decide)
  · exact ((asEntity_dispatch ⟨[], []⟩ _).2 rfl).2.2.2.2.2.2.2 (by decide)

/-- Shared elimination: a successful asEntity call wraps exactly the graph
and address it was given. -/
theorem asEntity_ok_elim {g : Graph} {a : Address} {e : GithubEntity}
    (h : asEntity g a = .ok e) : e.graph = g ∧ e.nodeAddress = a := by
  unfold asEntity at h
  split_ifs at h
  all_goals injection h with h
  all_goals (subst h; exact ⟨rfl, rfl⟩)

/-- C4: whenever asEntity succeeds on an address, the returned entity's
address() is exactly the address that was passed in. -/
theorem resolveEntity_address (g : Graph) (a : Address) (e : GithubEntity)
    (h : asEntity g a = .ok e) : e.address = a := by
  have hh := asEntity_ok_elim h
  simp [GithubEntity.address, hh.2]

/-- Witness for C4: resolving a concrete ISSUE address returns an entity
whose address() is that very address. -/
theorem resolveEntity_address_witness :
    (⟨.issue, ⟨[], []⟩, ⟨PLUGIN_NAME, "ISSUE", "i1"⟩⟩ :
      GithubEntity).address = ⟨PLUGIN_NAME, "ISSUE", "i1"⟩ :=
  resolveEntity_address ⟨[], []⟩ ⟨PLUGIN_NAME, "ISSUE", "i1"⟩
    ⟨.issue, ⟨[], []⟩, ⟨PLUGIN_NAME, "ISSUE", "i1"⟩⟩ (by decide)

/-- C5: resolution performs no graph read — asEntity succeeds even for a
dangling address with no backing node, and body() or url() on an entity
built from such an address fails with MissingPayload at access time. -/
theorem lazyResolution (g : Graph) (a : Address)
    (hns : a.pluginName = PLUGIN_NAME) (ht : a.type ∈ GITHUB_NODE_TYPES)
    (hd : g.node a = none) :
    (∃ e, asEntity g a = .ok e) ∧
    (∀ e, asEntity g a = .ok e →
      Post.body e = .error (.missingPayload a) ∧
      GithubEntity.url e = .error (.missingPayload a)) := by
  constructor
  · simp only [GITHUB_NODE_TYPES, List.mem_cons, List.not_mem_nil,
      or_false] at ht
    rcases ht with ht | ht | ht | ht | ht | ht | ht
    · exact ⟨⟨.issue, g, a⟩, by simp [asEntity, hns, ht]⟩
    · exact ⟨⟨.pullRequest, g, a⟩, by
        simp [asEntity, hns, ht, PULL_REQUEST_NODE_TYPE, ISSUE_NODE_TYPE]⟩
    · exact ⟨⟨.comment, g, a⟩, by
        simp [asEntity, hns, ht, COMMENT_NODE_TYPE, ISSUE_NODE_TYPE,
          PULL_REQUEST_NODE_TYPE]⟩
    · exact ⟨⟨.author, g, a⟩, by
        simp [asEntity, hns, ht, AUTHOR_NODE_TYPE, ISSUE_NODE_TYPE,
          PULL_REQUEST_NODE_TYPE, COMMENT_NODE_TYPE]⟩
    · exact ⟨⟨.pullRequestReview, g, a⟩, by
        simp [asEntity, hns, ht, PULL_REQUEST_REVIEW_NODE_TYPE,
          ISSUE_NODE_TYPE, PULL_REQUEST_NODE_TYPE, COMMENT_NODE_TYPE,
          AUTHOR_NODE_TYPE]⟩
    · exact ⟨⟨.pullRequestReviewComment, g, a⟩, by
        simp [asEntity, hns, ht, PULL_REQUEST_REVIEW_COMMENT_NODE_TYPE,
          ISSUE_NODE_TYPE, PULL_REQUEST_NODE_TYPE, COMMENT_NODE_TYPE,
          AUTHOR_NODE_TYPE, PULL_REQUEST_REVIEW_NODE_TYPE]⟩
    · exact ⟨⟨.repository, g, a⟩, by
        simp [asEntity, hns, ht, REPOSITORY_NODE_TYPE, ISSUE_NODE_TYPE,
          PULL_REQUEST_NODE_TYPE, COMMENT_NODE_TYPE, AUTHOR_NODE_TYPE,
          PULL_REQUEST_REVIEW_NODE_TYPE,
          PULL_REQUEST_REVIEW_COMMENT_NODE_TYPE]⟩
  · intro e h
    obtain ⟨hg, ha⟩ := asEntity_ok_elim h
    constructor
    · simp [Post.body, GithubEntity.node, hg, ha, hd]
    · simp [GithubEntity.url, GithubEntity.node, hg, ha, hd]

/-- Witness for C5: an ISSUE address with no backing node in the empty
graph resolves, and its body() and url() fail with MissingPayload. -/
theorem lazyResolution_witness :
    Post.body ⟨.issue, ⟨[], []⟩, ⟨PLUGIN_NAME, "ISSUE", "d1"⟩⟩ =
      .error (.missingPayload ⟨PLUGIN_NAME, "ISSUE", "d1"⟩) ∧
    GithubEntity.url ⟨.issue, ⟨[], []⟩, ⟨PLUGIN_NAME, "ISSUE", "d1"⟩⟩ =
      .error (.missingPayload ⟨PLUGIN_NAME, "ISSUE", "d1"⟩) :=
  (lazyResolution ⟨[], []⟩ ⟨PLUGIN_NAME, "ISSUE", "d1"⟩ rfl (by decide)
      rfl).2
    ⟨.issue, ⟨[], []⟩, ⟨PLUGIN_NAME, "ISSUE", "d1"⟩⟩ (by decide)

/-- Shared: the assert-then-return pattern succeeds with the original
entity exactly when the entity's type tag equals the expected tag. -/
theorem fromAssert_ok_iff (e : GithubEntity) (t : String) :
    ((match assertEntityType e t with
      | .error err => .error err
      | .ok _ => .ok e) : Except Err GithubEntity) = .ok e ↔
      e.type = t := by
  unfold assertEntityType
  by_cases h : e.type = t <;> simp [h]

/-- Shared: the assert-then-return pattern fails with TypeMismatch,
embedding the entity's address and the expected tag, on a tag mismatch. -/
theorem fromAssert_err (e : GithubEntity) (t : String) (h : e.type ≠ t) :
    ((match assertEntityType e t with
      | .error err => .error err
      | .ok _ => .ok e) : Except Err GithubEntity) =
      .error (.typeMismatch e.address t) := by
  unfold assertEntityType
  simp [h]

/-- C3: for every entity e and every variant type defining a static from
method, from(e) returns e itself exactly when e's type tag equals the
variant's tag, and otherwise fails with a TypeMismatch error embedding
e's address and the expected type tag. -/
theorem variantFrom_spec (e : GithubEntity) :
    ((Author.from_ e = .ok e ↔ e.type = AUTHOR_NODE_TYPE) ∧
      (e.type ≠ AUTHOR_NODE_TYPE → Author.from_ e =
        .error (.typeMismatch e.address AUTHOR_NODE_TYPE))) ∧
    ((PullRequest.from_ e = .ok e ↔ e.type = PULL_REQUEST_NODE_TYPE) ∧
      (e.type ≠ PULL_REQUEST_NODE_TYPE → PullRequest.from_ e =
        .error (.typeMismatch e.address PULL_REQUEST_NODE_TYPE))) ∧
    ((Issue.from_ e = .ok e ↔ e.type = ISSUE_NODE_TYPE) ∧
      (e.type ≠ ISSUE_NODE_TYPE → Issue.from_ e =
        .error (.typeMismatch e.address ISSUE_NODE_TYPE))) ∧
    ((Comment.from_ e = .ok e ↔ e.type = COMMENT_NODE_TYPE) ∧
      (e.type ≠ COMMENT_NODE_TYPE → Comment.from_ e =
        .error (.typeMismatch e.address COMMENT_NODE_TYPE))) ∧
    ((PullRequestReview.from_ e = .ok e ↔
        e.type = PULL_REQUEST_REVIEW_NODE_TYPE) ∧
      (e.type ≠ PULL_REQUEST_REVIEW_NODE_TYPE →
        PullRequestReview.from_ e =
          .error (.typeMismatch e.address
            PULL_REQUEST_REVIEW_NODE_TYPE))) ∧
    ((PullRequestReviewComment.from_ e = .ok e ↔
        e.type = PULL_REQUEST_REVIEW_COMMENT_NODE_TYPE) ∧
      (e.type ≠ PULL_REQUEST_REVIEW_COMMENT_NODE_TYPE →
        PullRequestReviewComment.from_ e =
          .error (.typeMismatch e.address
            PULL_REQUEST_REVIEW_COMMENT_NODE_TYPE))) := by
  refine ⟨⟨?_, ?_⟩, ⟨?_, ?_⟩, ⟨?_, ?_⟩, ⟨?_, ?_⟩, ⟨?_, ?_⟩, ⟨?_, ?_⟩⟩
  · exact fromAssert_ok_iff e AUTHOR_NODE_TYPE
  · exact fun h => fromAssert_err e AUTHOR_NODE_TYPE h
  · exact fromAssert_ok_iff e PULL_REQUEST_NODE_TYPE
  · exact fun h => fromAssert_err e PULL_REQUEST_NODE_TYPE h
  · exact fromAssert_ok_iff e ISSUE_NODE_TYPE
  · exact fun h => fromAssert_err e ISSUE_NODE_TYPE h
  · exact fromAssert_ok_iff e COMMENT_NODE_TYPE
  · exact fun h => fromAssert_err e COMMENT_NODE_TYPE h
  · exact fromAssert_ok_iff e PULL_REQUEST_REVIEW_NODE_TYPE
  · exact fun h => fromAssert_err e PULL_REQUEST_REVIEW_NODE_TYPE h
  · exact fromAssert_ok_iff e PULL_REQUEST_REVIEW_COMMENT_NODE_TYPE
  · exact fun h =>
      fromAssert_err e PULL_REQUEST_REVIEW_COMMENT_NODE_TYPE h

/-- Witness for C3: downcasting a concrete ISSUE-tagged entity to Author
fails with TypeMismatch embedding its address and the expected tag. -/
theorem variantFrom_spec_witness :
    Author.from_ ⟨.issue, ⟨[], []⟩, ⟨PLUGIN_NAME, "ISSUE", "i1"⟩⟩ =
      .error (.typeMismatch ⟨PLUGIN_NAME, "ISSUE", "i1"⟩
        AUTHOR_NODE_TYPE) :=
  (variantFrom_spec
    ⟨.issue, ⟨[], []⟩, ⟨PLUGIN_NAME, "ISSUE", "i1"⟩⟩).1.2 (by decide)

/-- C2: mergeCommitHash() returns the null value when the pull request
has zero OUT-direction MERGED_AS edges to a Commit node, the edge's
payload hash when it has exactly one, and fails with InvariantViolation
when it has two or more. -/
theorem mergeCommitHash_cardinality (e : GithubEntity) :
    (e.graph.neighborhood e.nodeAddress (some MERGED_AS_EDGE_TYPE)
        (some COMMIT_NODE_TYPE) .OUT = [] →
      PullRequest.mergeCommitHash e = .ok none) ∧
    (∀ (r : NeighborhoodResult) (hash : String),
      e.graph.neighborhood e.nodeAddress (some MERGED_AS_EDGE_TYPE)
          (some COMMIT_NODE_TYPE) .OUT = [r] →
      r.edge.payload = .mergedAs hash →
      PullRequest.mergeCommitHash e = .ok (some hash)) ∧
    (2 ≤ (e.graph.neighborhood e.nodeAddress (some MERGED_AS_EDGE_TYPE)
        (some COMMIT_NODE_TYPE) .OUT).length →
      PullRequest.mergeCommitHash e =
        .error (.invariantViolation e.nodeAddress.id)) := by
  refine ⟨?_, ?_, ?_⟩
  · intro h
    simp [PullRequest.mergeCommitHash, h]
  · intro r hash hl hp
    simp [PullRequest.mergeCommitHash, hl, hp, EdgePayload.hashOf]
  · intro h2
    simp only [PullRequest.mergeCommitHash, List.length_map]
    rw [if_pos (by omega)]

/-- Witness for C2: with zero MERGED_AS edges mergeCommitHash is null;
with exactly one it is that edge's hash; with two it fails with
InvariantViolation naming the pull request's id. -/
theorem mergeCommitHash_cardinality_witness :
    PullRequest.mergeCommitHash ⟨.pullRequest, ⟨[], []⟩, prAddr⟩ =
      .ok none ∧
    PullRequest.mergeCommitHash ⟨.pullRequest, mergedGraph, prAddr⟩ =
      .ok (some "abc123") ∧
    PullRequest.mergeCommitHash
        ⟨.pullRequest, doubleMergedGraph, prAddr⟩ =
      .error (.invariantViolation "pr1") := by
  refine ⟨?_, ?_, ?_⟩
  · exact (mergeCommitHash_cardinality
      ⟨.pullRequest, ⟨[], []⟩, prAddr⟩).1 rfl
  · exact (mergeCommitHash_cardinality
      ⟨.pullRequest, mergedGraph, prAddr⟩).2.1
        ⟨mergeEdge1, commitAddr⟩ "abc123" (by decide) rfl
  · exact (mergeCommitHash_cardinality
      ⟨.pullRequest, doubleMergedGraph, prAddr⟩).2.2 (by decide)

/-- Shared: a fold that overwrites a single result slot on every match
ends at the last matching element (the first match of the reversal), or
at its initial value when nothing matches. -/
theorem foldl_lastWins {α β : Type} (p : α → Bool) (f : α → β)
    (l : List α) (init : Option β) :
    l.foldl (fun r n => if p n then some (f n) else r) init =
      match l.reverse.find? p with
      | some n => some (f n)
      | none => init := by
  induction l generalizing init with
  | nil => simp
  | cons x t ih =>
    rw [List.foldl_cons, ih, List.reverse_cons, List.find?_append]
    cases ht : t.reverse.find? p with
    | some n => simp [Option.or]
    | none =>
      by_cases hx : p x <;> simp [Option.or, List.find?, hx]

/-- C6: issueOrPRByNumber scans all Issue nodes, then all PullRequest
nodes, graph-wide, writing each match into one result slot: the result is
the last matching PullRequest node if any (a pull request match
overwrites any issue match), else the last matching Issue node, else the
absent value. -/
theorem issueOrPRByNumber_lastMatch (e : GithubEntity) (k : Int) :
    Repository.issueOrPRByNumber e k =
      match (e.graph.nodesOfType PULL_REQUEST_NODE_TYPE).reverse.find?
          (fun n => n.payload.numberOf == some k) with
      | some n => some ⟨.pullRequest, e.graph, n.address⟩
      | none =>
        match (e.graph.nodesOfType ISSUE_NODE_TYPE).reverse.find?
            (fun n => n.payload.numberOf == some k) with
        | some n => some ⟨.issue, e.graph, n.address⟩
        | none => none := by
  unfold Repository.issueOrPRByNumber
  rw [foldl_lastWins, foldl_lastWins]
  cases (e.graph.nodesOfType PULL_REQUEST_NODE_TYPE).reverse.find?
      (fun n => n.payload.numberOf == some k) <;>
    cases (e.graph.nodesOfType ISSUE_NODE_TYPE).reverse.find?
      (fun n => n.payload.numberOf == some k) <;> rfl

/-- Shared: membership in a neighborhood query with both type filters
supplied and no direction restriction, characterized over raw edges. -/
theorem mem_neighborhood_any_iff (g : Graph) (a : Address)
    (et nt : String) (r : NeighborhoodResult) :
    r ∈ g.neighborhood a (some et) (some nt) .ANY ↔
      r.edge ∈ g.edges ∧ (r.edge.src = a ∨ r.edge.dst = a) ∧
      r.edge.address.type = et ∧
      r.neighbor = (if r.edge.src = a then r.edge.dst else r.edge.src) ∧
      r.neighbor.type = nt := by
  unfold Graph.neighborhood
  rw [List.mem_filterMap]
  constructor
  · rintro ⟨ed, hed, hf⟩
    dsimp only at hf
    by_cases h1 : (decide (ed.src = a) || decide (ed.dst = a)) = true
    · rw [if_pos h1] at hf
      by_cases h2 : (decide (ed.address.type = et) &&
          decide ((if ed.src = a then ed.dst else ed.src).type = nt)) =
            true
      · rw [if_pos h2] at hf
        injection hf with hf
        subst hf
        simp only [Bool.or_eq_true, decide_eq_true_eq] at h1
        simp only [Bool.and_eq_true, decide_eq_true_eq] at h2
        exact ⟨hed, h1, h2.1, rfl, h2.2⟩
      · rw [if_neg h2] at hf
        exact Option.noConfusion hf
    · rw [if_neg h1] at hf
      exact Option.noConfusion hf
  · rintro ⟨hed, hdir, het, hnb, hnt⟩
    refine ⟨r.edge, hed, ?_⟩
    dsimp only
    have hdirb : (decide (r.edge.src = a) || decide (r.edge.dst = a)) =
        true := by
      simp only [Bool.or_eq_true, decide_eq_true_eq]
      exact hdir
    have hokb : (decide (r.edge.address.type = et) &&
        decide ((if r.edge.src = a then r.edge.dst else
          r.edge.src).type = nt)) = true := by
      simp only [Bool.and_eq_true, decide_eq_true_eq]
      exact ⟨het, by rw [← hnb]; exact hnt⟩
    rw [if_pos hdirb, if_pos hokb, ← hnb]

/-- C7 (amended): authors() equals the neighborhood query with edge type
AUTHORS, neighbor node type Author, and NO direction restriction (the
call site omits the direction criterion, so edges incident in either
direction qualify), each neighbor wrapped as an Author entity. -/
theorem authors_neighborhood (e x : GithubEntity) :
    x ∈ Post.authors e ↔
      ∃ ed ∈ e.graph.edges,
        ed.address.type = AUTHORS_EDGE_TYPE ∧
        (ed.src = e.nodeAddress ∨ ed.dst = e.nodeAddress) ∧
        x = ⟨.author, e.graph,
          if ed.src = e.nodeAddress then ed.dst else ed.src⟩ ∧
        (if ed.src = e.nodeAddress then ed.dst else ed.src).type =
          AUTHOR_NODE_TYPE := by
  unfold Post.authors
  rw [List.mem_map]
  constructor
  · rintro ⟨r, hr, rfl⟩
    rw [mem_neighborhood_any_iff] at hr
    obtain ⟨hed, hdir, het, hnb, hnt⟩ := hr
    exact ⟨r.edge, hed, het, hdir, by rw [hnb],
      by rw [← hnb]; exact hnt⟩
  · rintro ⟨ed, hed, het, hdir, rfl, hnt⟩
    refine ⟨⟨ed, if ed.src = e.nodeAddress then ed.dst else ed.src⟩,
      ?_, rfl⟩
    rw [mem_neighborhood_any_iff]
    exact ⟨hed, hdir, het, rfl, hnt⟩

/-- Counterexample to C7 as stated: on a graph whose only AUTHORS edge
runs from the author INTO the post, authors() (which supplies no
direction criterion) returns that author, while the claimed OUT-direction
query returns nothing. -/
theorem authors_direction_counterexample :
    Post.authors ⟨.issue, authorsGraph, postAddr7⟩ =
      [⟨.author, authorsGraph, authorAddr7⟩] ∧
    Post.authorsSpec ⟨.issue, authorsGraph, postAddr7⟩ = [] ∧
    Post.authors ⟨.issue, authorsGraph, postAddr7⟩ ≠
      Post.authorsSpec ⟨.issue, authorsGraph, postAddr7⟩ := by
  refine ⟨by decide, by decide, by decide⟩

/-- C8: issues(), pullRequests(), and authors() on a repository entity
return every node in the entire graph whose type tag is ISSUE,
PULL_REQUEST, or AUTHOR respectively, wrapped as the corresponding
entity; the scans do not depend on which repository (or any entity) the
receiver wraps. -/
theorem repositoryAccessors_graphWide (g : Graph) (k k1 : EntityKind)
    (a a1 : Address) (x : GithubEntity) :
    (x ∈ Repository.issues ⟨k, g, a⟩ ↔
      ∃ n ∈ g.nodes, n.address.type = ISSUE_NODE_TYPE ∧
        x = ⟨.issue, g, n.address⟩) ∧
    (x ∈ Repository.pullRequests ⟨k, g, a⟩ ↔
      ∃ n ∈ g.nodes, n.address.type = PULL_REQUEST_NODE_TYPE ∧
        x = ⟨.pullRequest, g, n.address⟩) ∧
    (x ∈ Repository.authors ⟨k, g, a⟩ ↔
      ∃ n ∈ g.nodes, n.address.type = AUTHOR_NODE_TYPE ∧
        x = ⟨.author, g, n.address⟩) ∧
    Repository.issues ⟨k, g, a⟩ = Repository.issues ⟨k1, g, a1⟩ ∧
    Repository.pullRequests ⟨k, g, a⟩ =
      Repository.pullRequests ⟨k1, g, a1⟩ ∧
    Repository.authors ⟨k, g, a⟩ = Repository.authors ⟨k1, g, a1⟩ := by
  refine ⟨?_, ?_, ?_, rfl, rfl, rfl⟩
  · simp only [Repository.issues, Graph.nodesOfType, List.mem_map,
      List.mem_filter, decide_eq_true_eq]
    constructor
    · rintro ⟨n, ⟨hn, hty⟩, rfl⟩
      exact ⟨n, hn, hty, rfl⟩
    · rintro ⟨n, hn, hty, rfl⟩
      exact ⟨n, ⟨hn, hty⟩, rfl⟩
  · simp only [Repository.pullRequests, Graph.nodesOfType, List.mem_map,
      List.mem_filter, decide_eq_true_eq]
    constructor
    · rintro ⟨n, ⟨hn, hty⟩, rfl⟩
      exact ⟨n, hn, hty, rfl⟩
    · rintro ⟨n, hn, hty, rfl⟩
      exact ⟨n, ⟨hn, hty⟩, rfl⟩
  · simp only [Repository.authors, Graph.nodesOfType, List.mem_map,
      List.mem_filter, decide_eq_true_eq]
    constructor
    · rintro ⟨n, ⟨hn, hty⟩, rfl⟩
      exact ⟨n, hn, hty, rfl⟩
    · rintro ⟨n, hn, hty, rfl⟩
      exact ⟨n, ⟨hn, hty⟩, rfl⟩

/-- C9: Porcelain.repository(owner, name) fails with an error when more
than one repository in the graph matches owner and name, returns the
absent value when none matches, and returns the unique match when
exactly one does. -/
theorem repository_lookup (g : Graph) (o nm : String) :
    (1 < ((Porcelain.repositories g).filter (fun r =>
        match Repository.owner r, Repository.name r with
        | .ok (some ow), .ok (some na) => ow = o ∧ na = nm
        | _, _ => false)).length →
      Porcelain.repository g o nm =
        .error (.multipleRepositories o nm)) ∧
    (((Porcelain.repositories g).filter (fun r =>
        match Repository.owner r, Repository.name r with
        | .ok (some ow), .ok (some na) => ow = o ∧ na = nm
        | _, _ => false)) = [] →
      Porcelain.repository g o nm = .ok none) ∧
    (∀ r, ((Porcelain.repositories g).filter (fun r =>
        match Repository.owner r, Repository.name r with
        | .ok (some ow), .ok (some na) => ow = o ∧ na = nm
        | _, _ => false)) = [r] →
      Porcelain.repository g o nm = .ok (some r)) := by
  refine ⟨?_, ?_, ?_⟩
  · intro h
    simp only [Porcelain.repository]
    rw [if_pos h]
  · intro h
    simp only [Porcelain.repository]
    rw [h]
    rfl
  · intro r h
    simp only [Porcelain.repository]
    rw [h]
    rfl

/-- Witness for C9: two same-named repositories raise the error, an empty
graph yields the absent value, a unique repository is returned. -/
theorem repository_lookup_witness :
    Porcelain.repository twoRepoGraph "acme" "widgets" =
      .error (.multipleRepositories "acme" "widgets") ∧
    Porcelain.repository ⟨[], []⟩ "acme" "widgets" = .ok none ∧
    Porcelain.repository oneRepoGraph "acme" "widgets" =
      .ok (some ⟨.repository, oneRepoGraph, repoAddr1⟩) := by
  refine ⟨?_, ?_, ?_⟩
  · exact (repository_lookup twoRepoGraph "acme" "widgets").1 (by decide)
  · exact (repository_lookup ⟨[], []⟩ "acme" "widgets").2.1 (by decide)
  · exact (repository_lookup oneRepoGraph "acme" "widgets").2.2
      ⟨.repository, oneRepoGraph, repoAddr1⟩ (by decide)

/-- Shared: asEntity succeeds on any address in the owning namespace
whose type tag lies in the closed set. -/
theorem asEntity_ok_of_tag (g : Graph) (a : Address)
    (hns : a.pluginName = PLUGIN_NAME)
    (ht : a.type ∈ GITHUB_NODE_TYPES) :
    ∃ e, asEntity g a = .ok e := by
  unfold asEntity
  rw [if_neg (by simp [hns])]
  simp only [GITHUB_NODE_TYPES, List.mem_cons, List.not_mem_nil,
    or_false] at ht
  rcases ht with ht | ht | ht | ht | ht | ht | ht <;>
    simp [ht, ISSUE_NODE_TYPE, PULL_REQUEST_NODE_TYPE,
      COMMENT_NODE_TYPE, AUTHOR_NODE_TYPE,
      PULL_REQUEST_REVIEW_NODE_TYPE,
      PULL_REQUEST_REVIEW_COMMENT_NODE_TYPE, REPOSITORY_NODE_TYPE]

/-- Shared: asEntity fails with WrongNamespace on a foreign namespace. -/
theorem asEntity_wrongNamespace (g : Graph) (a : Address)
    (h : a.pluginName ≠ PLUGIN_NAME) :
    asEntity g a = .error (.wrongNamespace a) := by
  unfold asEntity
  rw [if_pos h]

/-- Shared: mapping asEntity over a list of addresses fails with the
WrongNamespace error of the first foreign-namespace address, provided
every owning-namespace address in the list carries a known tag. -/
theorem mapM_asEntity_firstBad (g : Graph) (l : List Address)
    (hall : ∀ b ∈ l, b.pluginName = PLUGIN_NAME →
      b.type ∈ GITHUB_NODE_TYPES)
    (aa : Address)
    (hfind : l.find? (fun b => b.pluginName != PLUGIN_NAME) = some aa) :
    l.mapM (fun x => asEntity g x) = .error (.wrongNamespace aa) := by
  induction l with
  | nil => simp at hfind
  | cons x t ih =>
    by_cases hx : x.pluginName = PLUGIN_NAME
    · simp only [List.find?_cons, hx, bne_self_eq_false] at hfind
      obtain ⟨ex, hex⟩ :=
        asEntity_ok_of_tag g x hx (hall x (List.mem_cons_self x t) hx)
      have ht := ih (fun b hb => hall b (List.mem_cons_of_mem x hb))
        hfind
      rw [List.mapM_cons, hex, ht]
      rfl
    · have hpx : (x.pluginName != PLUGIN_NAME) = true := by
        simp [bne_iff_ne, hx]
      simp only [List.find?_cons, hpx, Option.some.injEq] at hfind
      subst hfind
      rw [List.mapM_cons, asEntity_wrongNamespace g x hx]
      rfl

/-- C10: references() resolves each OUT-direction REFERENCES neighbor
through the asEntity dispatcher, so when some referenced neighbor's
address belongs to a foreign plugin namespace (and the owning-namespace
neighbors all carry known tags), the whole call fails with the
WrongNamespace error of the first such neighbor instead of returning the
remaining references. -/
theorem references_wrongNamespace (e : GithubEntity) (aa : Address)
    (hall : ∀ b ∈ Post.referenceNeighbors e,
      b.pluginName = PLUGIN_NAME → b.type ∈ GITHUB_NODE_TYPES)
    (hfind : (Post.referenceNeighbors e).find?
        (fun b => b.pluginName != PLUGIN_NAME) = some aa) :
    aa.pluginName ≠ PLUGIN_NAME ∧
    Post.references e = .error (.wrongNamespace aa) := by
  constructor
  · have hp := List.find?_some hfind
    simpa [bne_iff_ne] using hp
  · unfold Post.references
    exact mapM_asEntity_firstBad e.graph _ hall aa hfind

/-- Witness for C10: a post whose only REFERENCES neighbor is a
git-plugin commit address makes references() fail with WrongNamespace
for that commit address. -/
theorem references_wrongNamespace_witness :
    commitAddr.pluginName ≠ PLUGIN_NAME ∧
    Post.references ⟨.issue, refGraph, post10⟩ =
      .error (.wrongNamespace commitAddr) :=
  references_wrongNamespace ⟨.issue, refGraph, post10⟩ commitAddr
    (by decide) (by decide)
